import Mathlib

/-!
Verification development for the Echo-Mind customer-support backend
(`src/Backend/main.py`).  The dialogue-orchestration core is embedded
shallowly: Python strings are Lean `String`s (character-level work uses
`List Char`), the MongoDB `cases` / `customers` collections are association
lists keyed by `_id`, and the two external collaborators (document store
availability, LLM outcome) are explicit parameters.  Every definition is a
direct translation of the corresponding Python function.
-/

namespace EchoMind

/-! ## Python string primitives -/

/-- Python's `\s` character class (whitespace recognised by `str.strip` and
the regex patterns): space, tab, newline, carriage return, vertical tab,
form feed. -/
def pyIsSpace (c : Char) : Bool :=
  c == ' ' || c == '\t' || c == '\n' || c == '\r' || c == '\x0b' || c == '\x0c'

/-- Python `str.strip()` on a character list. -/
def pyStrip (l : List Char) : List Char :=
  ((l.dropWhile pyIsSpace).reverse.dropWhile pyIsSpace).reverse

/-- Python `str.lower()` on a character list (ASCII case mapping). -/
def toLowerL (l : List Char) : List Char := l.map Char.toLower

/-- Python `str.upper()` on a character list (ASCII case mapping). -/
def toUpperL (l : List Char) : List Char := l.map Char.toUpper

/-- Contiguous-sublist test on character lists (Python's `in` on strings). -/
def isSubL : List Char → List Char → Bool
  | needle, [] => needle.isEmpty
  | needle, c :: t => needle.isPrefixOf (c :: t) || isSubL needle t

/-- Python substring containment `needle in hay` for a `hay` given as a
character list. -/
def containsSub (needle : String) (hay : List Char) : Bool :=
  isSubL needle.toList hay

/-- Python `str.capitalize()`: first character upper-cased, the rest
lower-cased. -/
def pyCapitalize (s : String) : String :=
  match s.toList with
  | [] => ""
  | c :: cs => String.mk (Char.toUpper c :: cs.map Char.toLower)

/-- `query.lower().strip()` — the normalisation applied by the
intent/urgency classifier (`main.py` line 252). -/
def pyLowerStrip (q : String) : List Char := pyStrip (toLowerL q.toList)

/-! ## Knowledge base (`domain_knowledge_bases`, `main.py` lines 182-197)

The JSON file `domain_questions.json` is not part of the repository; the
in-source fallback table (the `FileNotFoundError` branch) is the table
embedded here.  Insertion order of the Python dicts is the list order. -/

def domain_knowledge_bases : List (String × List (String × String)) :=
  [("general",
     [("refund status", "Refunds typically take 5-7 business days to process. Please provide your order number to check the status.")]),
   ("technical",
     [("internet not working", "Please try restarting your router and modem. If the issue persists, check the service status page for your area."),
      ("installation help", "For installation assistance, please refer to your product manual or visit our online guides.")]),
   ("finance",
     [("billing inquiry", "For billing inquiries, please provide your account number. You can also check your last bill online.")]),
   ("travel",
     [("change plan", "You can change your service plan through your online account portal or by speaking with a sales representative."),
      ("flight status", "You can check your flight status on the airline's website or app using your booking reference.")])]

/-- The sentinel returned when no keyword matches (`main.py` line 238). -/
def kbSentinel : String := "No specific knowledge base article found for this query."

/-- `get_knowledge_base_info` (`main.py` lines 233-238): first entry of the
domain's table whose keyword is a substring of the lower-cased query. -/
def get_knowledge_base_info (query : String) (domain : String) : String :=
  let knowledge_base := (domain_knowledge_bases.lookup domain).getD []
  match knowledge_base.find? (fun e => containsSub e.1 (toLowerL query.toList)) with
  | some e => e.2
  | none => kbSentinel

/-! ## Sentiment classifier (`analyze_sentiment`, `main.py` lines 240-246) -/

def frustratedWords : List String :=
  ["not working", "frustrated", "annoyed", "unhappy", "bad", "terrible"]

def satisfiedWords : List String :=
  ["thank you", "resolved", "great", "happy", "good", "excellent"]

def analyze_sentiment (text : String) : String :=
  let text_lower := toLowerL text.toList
  if frustratedWords.any (fun w => containsSub w text_lower) then "frustrated"
  else if satisfiedWords.any (fun w => containsSub w text_lower) then "satisfied"
  else "neutral"

/-! ## Intent/urgency classifier (`determine_intent_and_urgency`,
`main.py` lines 248-289)

The three shop-id regular expressions are translated character-by-character.
`re.search` semantics: the match attempt is made at every position from the
left; the first position (and, there, the first alternative) that completes
a match wins.  As argued pattern-by-pattern below, no backtracking inside a
single attempt can change the outcome for these patterns, so each attempt is
a deterministic function of the suffix. -/

/-- `re.match(p, s)` for each greeting pattern succeeds exactly when the
corresponding literal is a prefix of `s` (the trailing `+` of `hi+`,
`hello+`, `hey+` only requires the one repetition already present in the
literal). -/
def greetingMatch (l : List Char) : Bool :=
  ["hi", "hello", "hey", "good morning", "good afternoon", "good evening"].any
    (fun p => p.toList.isPrefixOf l)

/-- `[a-zA-Z0-9]` of the shop-id patterns. -/
def isAlnumAscii (c : Char) : Bool :=
  ('a' ≤ c && c ≤ 'z') || ('A' ≤ c && c ≤ 'Z') || ('0' ≤ c && c ≤ '9')

/-- Match a literal at the head of the input, returning the rest. -/
def matchLit (lit : String) (s : List Char) : Option (List Char) :=
  if lit.toList.isPrefixOf s then some (s.drop lit.toList.length) else none

/-- Match `\s+` (one or more whitespace characters, greedily). -/
def matchSpaces1 (s : List Char) : Option (List Char) :=
  match s with
  | c :: cs => if pyIsSpace c then some (cs.dropWhile pyIsSpace) else none
  | [] => none

/-- Match a phrase whose words are separated by `\s+` in the pattern. -/
def matchPhrase : List String → List Char → Option (List Char)
  | [], s => some s
  | [w], s => matchLit w s
  | w :: w' :: ws, s =>
    (matchLit w s).bind fun s1 => (matchSpaces1 s1).bind (matchPhrase (w' :: ws))

/-- After a matched keyword/phrase: skip characters in `skip` (the `\s*` or
`[\s:]*` part), optionally one `#`, then capture a non-empty maximal
`[a-zA-Z0-9]+` run (the capture group). -/
def captureAfter (skip : Char → Bool) (s : List Char) : Option (List Char) :=
  let s1 := s.dropWhile skip
  let s2 := match s1 with
            | '#' :: cs => cs
            | _ => s1
  let run := s2.takeWhile isAlnumAscii
  if run.isEmpty then none else some run

/-- Alternatives of the first shop-id pattern
`(?:my\s+order\s+number\s+is|order\s+number\s+is|order\s+id\s+is|shopid\s+is|id\s+is)\s*[\#]?([a-zA-Z0-9]+)`. -/
def p1Alts : List (List String) :=
  [["my", "order", "number", "is"], ["order", "number", "is"],
   ["order", "id", "is"], ["shopid", "is"], ["id", "is"]]

def p1At (s : List Char) : Option (List Char) :=
  p1Alts.findSome? fun alt => (matchPhrase alt s).bind (captureAfter pyIsSpace)

/-- Keywords of the second pattern
`(?:shopid|orderid|tracking|ref|id)[\s:]*[\#]?([a-zA-Z0-9]+)`. -/
def p2Keywords : List String := ["shopid", "orderid", "tracking", "ref", "id"]

def p2At (s : List Char) : Option (List Char) :=
  p2Keywords.findSome? fun kw =>
    (matchLit kw s).bind (captureAfter (fun c => pyIsSpace c || c == ':'))

/-- Keywords of the third pattern `([a-zA-Z0-9]+)\s+(?:order|shopid|tracking|ref|id)`. -/
def p3Keywords : List String := ["order", "shopid", "tracking", "ref", "id"]

def p3At (s : List Char) : Option (List Char) :=
  let run := s.takeWhile isAlnumAscii
  if run.isEmpty then none
  else
    match matchSpaces1 (s.drop run.length) with
    | none => none
    | some rest =>
      if p3Keywords.any (fun kw => kw.toList.isPrefixOf rest) then some run else none

/-- `re.search`: try the attempt function at each position, leftmost first. -/
def searchAt (f : List Char → Option (List Char)) : List Char → Option (List Char)
  | [] => f []
  | c :: cs =>
    match f (c :: cs) with
    | some r => some r
    | none => searchAt f cs

/-- The shop-id extraction loop (`main.py` lines 256-269): the three
patterns are tried in order over the whole query; the first pattern that
matches anywhere supplies the captured group. -/
def extract_shopid (ql : List Char) : Option (List Char) :=
  match searchAt p1At ql with
  | some g => some g
  | none =>
    match searchAt p2At ql with
    | some g => some g
    | none => searchAt p3At ql

def techWords : List String :=
  ["internet", "wifi", "connection", "network", "technical issue", "troubleshoot", "device"]

def billingWords : List String :=
  ["bill", "invoice", "payment", "charge", "account balance", "billing issue", "cost", "fee"]

def installWords : List String :=
  ["installation", "setup", "install", "new service", "activate"]

def planWords : List String :=
  ["change plan", "upgrade", "downgrade", "new plan", "service package", "contract"]

def orderPhraseWords : List String :=
  ["order status", "track order", "where is my order", "delivery", "shipping", "item arrived"]

def financeWords : List String :=
  ["loan", "mortgage", "investment", "credit card", "bank account", "financial advice", "money"]

def travelWords : List String :=
  ["booking", "flight", "hotel", "reservation", "vacation", "tour", "travel plan", "destination", "trip"]

/-- `determine_intent_and_urgency` (`main.py` lines 248-289).  The entity
dict can only carry the single key `shopid`, embedded as an
`Option String`; urgency is always `"low"`. -/
def determine_intent_and_urgency (query : String) : String × String × Option String :=
  let query_lower := pyLowerStrip query
  if greetingMatch query_lower then ("greeting", "low", none)
  else
    match extract_shopid query_lower with
    | some sid => ("order_status", "low", some (String.mk sid))
    | none =>
      let intent :=
        if techWords.any (fun w => containsSub w query_lower) then "technical_support"
        else if billingWords.any (fun w => containsSub w query_lower) then "billing_inquiry"
        else if containsSub "refund" query_lower then "refund_request"
        else if installWords.any (fun w => containsSub w query_lower) then "installation_support"
        else if planWords.any (fun w => containsSub w query_lower) then "plan_management"
        else if orderPhraseWords.any (fun w => containsSub w query_lower) then "order_status"
        else if financeWords.any (fun w => containsSub w query_lower) then "finance_query"
        else if travelWords.any (fun w => containsSub w query_lower) then "travel_hospitality_query"
        else "general_inquiry"
      (intent, "low", none)

/-- The intent component, as consumed by the orchestrator. -/
def intentOf (query : String) : String := (determine_intent_and_urgency query).1

/-- The urgency component, as consumed by the orchestrator. -/
def urgencyOf (query : String) : String := (determine_intent_and_urgency query).2.1

/-! ## Escalation policy (`manage_case_escalation`, `main.py` lines 291-300) -/

def escalationIntents : List String :=
  ["technical_support", "billing_inquiry", "finance_query", "travel_hospitality_query", "order_status"]

def manage_case_escalation (current_turn : Nat) (intent urgency sentiment : String)
    (escalated_in_session : Bool) : Bool :=
  if escalated_in_session then true
  else if urgency == "high" && sentiment == "frustrated" then true
  else if decide (3 < current_turn) && sentiment == "frustrated" then true
  else if escalationIntents.contains intent && decide (2 < current_turn) then true
  else false

/-! ## Order lookup adapter (`get_order_details_by_id`, `main.py` lines 302-335)

The `orders` MongoDB collection is a list of order records behind an
`Option` (`none` models `orders_collection is None`).  `datetime.today()`
enters as `todayDays`, the civil day number of today's date (the function
only uses today through the day difference `(delivery_date - today).days`). -/

structure OrderRec where
  shopid : String
  product_name : Option String
  payment_status : Option String
  delivery_date : Option String
deriving DecidableEq, Inhabited

/-- `[A-Z0-9]` of the shop-id validation regex. -/
def validIdChar (c : Char) : Bool :=
  ('A' ≤ c && c ≤ 'Z') || ('0' ≤ c && c ≤ '9')

/-- `shopid.strip().upper()`. -/
def cleanId (s : String) : String :=
  String.mk (toUpperL (pyStrip s.toList))

def orderUnavailableMsg : String :=
  "I'm so sorry, but the order lookup service is temporarily unavailable. Please try again in a little while!"

def noIdMsg : String :=
  "It looks like a Shop ID wasn't included in your message. To check your order, please provide your Shop ID (e.g., 'What's the status of order SHOPID123?')."

def malformedIdMsg (shopid_clean : String) : String :=
  "I couldn't find an order with that ID: '" ++ shopid_clean ++ "'. Could you double-check it for me? Shop IDs usually contain letters and numbers only."

def notFoundMsg (shopid_clean : String) : String :=
  "I'm sorry, but I couldn't find an order with the ID '" ++ shopid_clean ++ "'. Please double-check the ID and try again, or contact our support team for more help!"

def monthNames : List String :=
  ["January", "February", "March", "April", "May", "June", "July", "August",
   "September", "October", "November", "December"]

def isLeap (y : Int) : Bool :=
  (y % 4 == 0 && y % 100 != 0) || (y % 400 == 0)

def daysInMonth (y : Int) (m : Nat) : Nat :=
  if m == 2 then (if isLeap y then 29 else 28)
  else if m == 4 || m == 6 || m == 9 || m == 11 then 30
  else 31

def digitsToNat (l : List Char) : Nat :=
  l.foldl (fun a c => a * 10 + (c.toNat - '0'.toNat)) 0

/-- `datetime.strptime(s, "%Y-%m-%d").date()`: exactly four year digits,
one or two month digits (1-12), one or two day digits, nothing left over,
and the day valid for the month (the `date` constructor's validation).
Returns `none` where Python raises `ValueError`. -/
def parseDate (s : String) : Option (Int × Nat × Nat) :=
  let l := s.toList
  let ys := l.takeWhile Char.isDigit
  let r1 := l.drop ys.length
  if ys.length != 4 then none
  else
    match r1 with
    | '-' :: r2 =>
      let ms := r2.takeWhile Char.isDigit
      let r3 := r2.drop ms.length
      if ms.length == 0 || 2 < ms.length then none
      else
        match r3 with
        | '-' :: r4 =>
          let ds := r4.takeWhile Char.isDigit
          let r5 := r4.drop ds.length
          if ds.length == 0 || 2 < ds.length || !r5.isEmpty then none
          else
            let y : Int := (digitsToNat ys : Nat)
            let m := digitsToNat ms
            let d := digitsToNat ds
            if 1 ≤ m && m ≤ 12 && 1 ≤ d && d ≤ daysInMonth y m then some (y, m, d)
            else none
        | _ => none
    | _ => none

/-- Civil day number of a calendar date (days since 1970-01-01); the
standard days-from-civil computation.  All intermediate values are
non-negative for the four-digit years produced by `parseDate`. -/
def daysFromCivil (y : Int) (m : Nat) (d : Nat) : Int :=
  let y' := if m ≤ 2 then y - 1 else y
  let era := (if 0 ≤ y' then y' else y' - 399) / 400
  let yoe := y' - era * 400
  let mp : Nat := (m + 9) % 12
  let doy : Int := ((153 * mp + 2) / 5 + d - 1 : Int)
  let doe := yoe * 365 + yoe / 4 - yoe / 100 + doy
  era * 146097 + doe - 719468

def pad2 (n : Nat) : String :=
  if n < 10 then "0" ++ toString n else toString n

def pad4 (n : Nat) : String :=
  let s := toString n
  String.mk (List.replicate (4 - s.length) '0') ++ s

/-- `delivery_date.strftime('%B %d, %Y')`. -/
def strftimeBdY (y : Int) (m : Nat) (d : Nat) : String :=
  (monthNames.getD (m - 1) "") ++ " " ++ pad2 d ++ ", " ++ pad4 y.toNat

/-- The delivery framing block of `get_order_details_by_id`
(`main.py` lines 317-329), given today's civil day number. -/
def deliveryInfoOf (todayDays : Int) (delivery_str : String) : String :=
  match parseDate delivery_str with
  | none =>
    "'" ++ delivery_str ++ "' (Invalid date format stored. Please contact support to correct this.)"
  | some (y, m, d) =>
    let days_left := daysFromCivil y m d - todayDays
    if 0 < days_left then
      strftimeBdY y m d ++ " (expected in " ++ toString days_left ++ " days)"
    else if days_left = 0 then
      strftimeBdY y m d ++ " (expected today!)"
    else
      strftimeBdY y m d ++ " (was " ++ toString days_left.natAbs ++ " days ago, possibly delivered or completed)"

/-- `get_order_details_by_id` (`main.py` lines 302-335). -/
def get_order_details_by_id (orders : Option (List OrderRec)) (todayDays : Int)
    (shopid : Option String) : String :=
  match orders with
  | none => orderUnavailableMsg
  | some db =>
    match shopid with
    | none => noIdMsg
    | some s =>
      if s = "" then noIdMsg
      else
        let shopid_clean := cleanId s
        if !(!shopid_clean.toList.isEmpty && shopid_clean.toList.all validIdChar) then
          malformedIdMsg shopid_clean
        else
          match db.find? (fun o => o.shopid == shopid_clean) with
          | none => notFoundMsg shopid_clean
          | some order =>
            let product := order.product_name.getD "Unknown Product"
            let payment := order.payment_status.getD "Unknown"
            let delivery_info :=
              match order.delivery_date with
              | none => "Not Available"
              | some ds => if ds = "" then "Not Available" else deliveryInfoOf todayDays ds
            "Order found:\nProduct: " ++ product ++ "\nPayment Status: " ++ payment ++
              "\nEstimated Delivery: " ++ delivery_info

/-! ## Data model and document store (`main.py` lines 103-173, 378-437)

Cases and customer profiles live in the `cases` / `customers` MongoDB
collections, embedded as association lists keyed by the document `_id` (the
keys are unique).  `datetime.now().isoformat()` enters as the `now`
parameter; the LLM collaborator enters as an `LLMResult`. -/

structure Msg where
  role : String
  content : String
  timestamp : String
deriving DecidableEq, Inhabited

structure CaseRec where
  session_id : String
  customer_id : String
  status : String
  created_at : String
  last_updated : String
  initial_query : String
  conversation_history : List Msg
  escalated : Bool
  summary : Option String
  domain : String
deriving DecidableEq, Inhabited

structure CustomerProfile where
  customer_id : String
  previous_interactions : List String
  purchase_history : List String
  preference_settings : List (String × String)
  sentiment_history : List String
  active_case_id : Option String
deriving DecidableEq, Inhabited

structure ChatRequest where
  user_query : String
  session_id : String
  customer_profile : CustomerProfile
  conversation_history : List Msg
  shop_id_for_order_lookup : Option String
  domain : String
deriving DecidableEq, Inhabited

structure ChatResponse where
  bot_response : String
  case_status : String
  case_id : Option String
  faq_suggestion : Option String
  sentiment_detected : Option String
deriving DecidableEq, Inhabited

structure Store where
  cases : List (String × CaseRec)
  customers : List (String × CustomerProfile)
deriving DecidableEq, Inhabited

/-- Outcome of the opaque Gemini call (`send_message_async`): generated
text, or any raised exception. -/
inductive LLMResult where
  | ok (text : String)
  | fail
deriving DecidableEq, Inhabited

/-- `update_one({"_id": k}, {"$set": ...})` on the cases collection. -/
def setCase (cs : List (String × CaseRec)) (k : String) (f : CaseRec → CaseRec) :
    List (String × CaseRec) :=
  cs.map fun e => if k == e.1 then (e.1, f e.2) else e

/-- `update_one({"_id": k}, ...)` on the customers collection. -/
def setCustomer (cs : List (String × CustomerProfile)) (k : String)
    (f : CustomerProfile → CustomerProfile) : List (String × CustomerProfile) :=
  cs.map fun e => if k == e.1 then (e.1, f e.2) else e

/-! ## Dialogue orchestrator (`chat_endpoint`, `main.py` lines 365-541)

The prompt-composition block (lines 439-496) only produces the text handed
to the opaque LLM collaborator, whose outcome is the `llm` argument; it is
therefore not re-modelled.  A `none` result models an uncaught exception
(HTTP 500), which happens exactly when `insert_one` hits a duplicate
`_id` (a stored case with this session id but another customer). -/

def refusalMessage (domain : String) : String :=
  "I'm sorry, but I can only help with **" ++ pyCapitalize domain ++
    "**-related queries here. To ask about something else, please return to the homepage and select a different chat domain!"

/-- The full refusal response of the denied-domain branch
(`main.py` lines 431-437). -/
def refusalResponse (domain : String) : ChatResponse :=
  { bot_response := refusalMessage domain
    case_status := "closed"
    case_id := none
    faq_suggestion := none
    sentiment_detected := some "unanswered" }

def apologyMessage : String :=
  "Oh dear, I seem to be having a little trouble at the moment. Please bear with me and try again in a bit, or feel free to reach out to our human support directly if it's urgent!"

def escalationNotice : String :=
  "\n\n**Just a heads-up**: Based on our conversation, I think it might be best if a human agent steps in. I'm escalating this for you, and someone will review our chat and get in touch shortly!"

/-- `domain_map` (`main.py` lines 418-423). -/
def domain_map : List (String × List String) :=
  [("general", ["general_inquiry", "greeting"]),
   ("technical", ["technical_support", "installation_support", "greeting"]),
   ("finance", ["finance_query", "billing_inquiry", "greeting"]),
   ("travel", ["travel_hospitality_query", "greeting", "order_status"])]

/-- The domain scope guard (`main.py` lines 425-429): permitted when the
intent is in the domain's table entry, or one of the two hard-coded
override exceptions applies. -/
def domainAllows (intent : String) (domain : String) : Bool :=
  ((domain_map.lookup domain).getD []).contains intent
    || (intent == "order_status" && domain == "general")
    || (intent == "general_inquiry" && domain != "general")

/-- Load-or-create of the customer profile (`main.py` lines 378-388).
A missing profile is inserted with the request-supplied values. -/
def load_or_create_profile (req : ChatRequest) (store : Store) : CustomerProfile × Store :=
  let customer_id := req.customer_profile.customer_id
  match store.customers.lookup customer_id with
  | some p => (p, store)
  | none =>
    (req.customer_profile,
     { store with customers := (customer_id, req.customer_profile) :: store.customers })

/-- Find-or-create of the case (`main.py` lines 390-409).  The lookup
filters on `_id` and `customer_id`; creation inserts a fresh open case and
stamps the profile's `active_case_id`.  `none`: `insert_one` would hit a
duplicate `_id` owned by a different customer. -/
def load_or_create_case (req : ChatRequest) (now : String) (store : Store) :
    Option (CaseRec × Store) :=
  let customer_id := req.customer_profile.customer_id
  let case_id := req.session_id
  match store.cases.lookup case_id with
  | some c => if c.customer_id == customer_id then some (c, store) else none
  | none =>
    let newCase : CaseRec :=
      { session_id := req.session_id
        customer_id := customer_id
        status := "open"
        created_at := now
        last_updated := now
        initial_query := req.user_query
        conversation_history := []
        escalated := false
        summary := none
        domain := req.domain }
    some (newCase,
      { store with
          cases := (case_id, newCase) :: store.cases
          customers := setCustomer store.customers customer_id
            (fun p => { p with active_case_id := some case_id }) })

/-- The body of the chat turn after the profile and case are in hand
(`main.py` lines 411-541): classification, domain guard, LLM call with the
failure fallback, escalation policy, persistence, structured response. -/
def process_turn (req : ChatRequest) (llm : LLMResult) (now : String)
    (current_case : CaseRec) (store : Store) : ChatResponse × Store :=
  let user_query := req.user_query
  let case_id := req.session_id
  let iue := determine_intent_and_urgency user_query
  let intent := iue.1
  let urgency := iue.2.1
  let user_sentiment := analyze_sentiment user_query
  let case_history := req.conversation_history
  let current_turn := case_history.length / 2 + 1
  if !domainAllows intent req.domain then
    (refusalResponse req.domain, store)
  else
    let br := match llm with
      | .ok t => (t, current_case.escalated)
      | .fail => (apologyMessage, true)
    let bot0 := br.1
    let esc0 := br.2
    let should_escalate := manage_case_escalation current_turn intent urgency user_sentiment esc0
    let upd :=
      if should_escalate && !esc0 then
        (bot0 ++ escalationNotice, true, "escalated_to_human")
      else (bot0, esc0, current_case.status)
    let bot1 := upd.1
    let esc1 := upd.2.1
    let case_status := upd.2.2
    let new_history :=
      case_history ++ [⟨"user", user_query, now⟩, ⟨"bot", bot1, now⟩]
    let store' :=
      { store with
          cases := setCase store.cases case_id fun c =>
            { c with conversation_history := new_history, last_updated := now,
                     status := case_status, escalated := esc1 } }
    ({ bot_response := bot1
       case_status := case_status
       case_id := some case_id
       faq_suggestion := some (get_knowledge_base_info user_query req.domain)
       sentiment_detected := some user_sentiment }, store')

/-- `chat_endpoint` (`main.py` lines 365-541). -/
def chat_endpoint (req : ChatRequest) (llm : LLMResult) (now : String) (store : Store) :
    Option (ChatResponse × Store) :=
  let ps := load_or_create_profile req store
  (load_or_create_case req now ps.2).map fun cs => process_turn req llm now cs.1 cs.2

/-! ## Case resolution (`resolve_case_endpoint`, `main.py` lines 566-596)

`llm = some t` is a successful summary generation with raw text `t`;
`none` is a failed one (the fallback placeholder title is used).  A `none`
result is the 404 branch (case not found). -/

/-- `response.text.strip().replace('"', '')`. -/
def summaryClean (t : String) : String :=
  String.mk ((pyStrip t.toList).filter (fun c => c != '\x22'))

def resolve_case (case_id : String) (llm : Option String) (now : String) (store : Store) :
    Option (String × Store) :=
  match store.cases.lookup case_id with
  | none => none
  | some case_ =>
    if case_.status == "resolved" || case_.status == "closed" then
      some ("Case " ++ case_id ++ " is already resolved.", store)
    else
      let summary_text :=
        match llm with
        | some t => summaryClean t
        | none =>
          "Case " ++ case_id ++ " was resolved on " ++ now ++
            ". The primary issue was not automatically summarized."
      let store1 :=
        { store with
            customers := setCustomer store.customers case_.customer_id fun p =>
              { p with previous_interactions := p.previous_interactions ++ [summary_text],
                       active_case_id := none } }
      let store2 :=
        { store1 with
            cases := setCase store1.cases case_id fun c =>
              { c with status := "resolved", summary := some summary_text } }
      some ("Case " ++ case_id ++ " resolved and summarized in customer's long-term memory.",
        store2)

/-! ## Statement-level definitions -/

/-- Stated from the spec's words, for the refinement comparison with
`get_knowledge_base_info`: the first entry (in insertion order) of the
domain's table whose keyword is a case-insensitive substring of the
utterance. -/
def kb_first_ci_match (query : String) (domain : String) : Option (String × String) :=
  ((domain_knowledge_bases.lookup domain).getD []).find?
    (fun e => isSubL (toLowerL e.1.toList) (toLowerL query.toList))

/-- The case invariant claimed by the spec:
`escalated == true ⇒ status ∈ {escalated_to_human, resolved}`. -/
def caseInvariant (c : CaseRec) : Prop :=
  c.escalated = true → c.status = "escalated_to_human" ∨ c.status = "resolved"

instance (c : CaseRec) : Decidable (caseInvariant c) := by
  unfold caseInvariant; infer_instance

/-- The case invariant, over every case record in the store. -/
def storeInv (s : Store) : Prop := ∀ kv ∈ s.cases, caseInvariant kv.2

instance (s : Store) : Decidable (storeInv s) := by
  unfold storeInv; infer_instance

/-! ## Concrete fixtures for witnesses and counterexamples -/

def emptyStore : Store := ⟨[], []⟩

def mkProfile (cid : String) : CustomerProfile :=
  { customer_id := cid, previous_interactions := [], purchase_history := [],
    preference_settings := [], sentiment_history := [], active_case_id := none }

def mkRequest (q sid cid d : String) (h : List Msg) : ChatRequest :=
  { user_query := q, session_id := sid, customer_profile := mkProfile cid,
    conversation_history := h, shop_id_for_order_lookup := none, domain := d }

/-- A denied-domain request (domain `finance`, classified intent
`technical_support`) arriving with no stored records. -/
def c1Req : ChatRequest := mkRequest "my internet is broken" "s1" "c1" "finance" []

/-- The same denied-domain situation with profile and case already stored. -/
def c1WCase : CaseRec :=
  { session_id := "w1", customer_id := "cw1", status := "open", created_at := "t0",
    last_updated := "t0", initial_query := "earlier", conversation_history := [],
    escalated := false, summary := none, domain := "finance" }

def c1WReq : ChatRequest := mkRequest "my internet is broken" "w1" "cw1" "finance" []

def c1WStore : Store := ⟨[("w1", c1WCase)], [("cw1", mkProfile "cw1")]⟩

def c2Req : ChatRequest := mkRequest "please assist" "s2" "c2" "general" []

def c2WReq : ChatRequest := mkRequest "please assist" "w2" "cw2" "general" []

def oldUserMsg : Msg := ⟨"user", "old question", "t-2"⟩

def oldBotMsg : Msg := ⟨"bot", "old answer", "t-1"⟩

def c3Case : CaseRec :=
  { session_id := "s3", customer_id := "c3", status := "resolved", created_at := "t-3",
    last_updated := "t-1", initial_query := "old question",
    conversation_history := [oldUserMsg, oldBotMsg], escalated := false,
    summary := some "old summary", domain := "general" }

def c3Req : ChatRequest := mkRequest "please assist" "s3" "c3" "general" [oldUserMsg, oldBotMsg]

def c3Store : Store := ⟨[("s3", c3Case)], [("c3", mkProfile "c3")]⟩

def c3WCase : CaseRec :=
  { session_id := "w3", customer_id := "cw3", status := "closed", created_at := "t-3",
    last_updated := "t-1", initial_query := "old question",
    conversation_history := [oldUserMsg, oldBotMsg], escalated := false,
    summary := none, domain := "general" }

def c3WReq : ChatRequest := mkRequest "please assist" "w3" "cw3" "general" [oldUserMsg, oldBotMsg]

def c3WStore : Store := ⟨[("w3", c3WCase)], [("cw3", mkProfile "cw3")]⟩

def c4Case : CaseRec :=
  { session_id := "s4", customer_id := "c4", status := "open", created_at := "t-3",
    last_updated := "t-1", initial_query := "old question",
    conversation_history := [oldUserMsg, oldBotMsg], escalated := false,
    summary := none, domain := "general" }

def c4Req : ChatRequest := mkRequest "please assist" "s4" "c4" "general" []

def c4Store : Store := ⟨[("s4", c4Case)], [("c4", mkProfile "c4")]⟩

def c4WReq : ChatRequest := mkRequest "please assist" "w4" "cw4" "general" [oldUserMsg, oldBotMsg]

def c5Req : ChatRequest := mkRequest "please assist" "s5" "c5" "general" []

def c6Req : ChatRequest := mkRequest "please assist" "s6" "c6" "general" []

def c10Req : ChatRequest := mkRequest "hi there" "s10" "c10" "hr" []

def c10PassReq : ChatRequest := mkRequest "please assist" "s10b" "c10b" "hr" []

/-! Concrete runs used by witnesses (retrieved through `Option.getD` so the
witness statements stay closed). -/

def c1WRun : ChatResponse × Store :=
  (chat_endpoint c1WReq (LLMResult.ok "x") "t1" c1WStore).getD default

def c2WRun : ChatResponse × Store :=
  (chat_endpoint c2WReq (LLMResult.ok "Hello!") "t0" emptyStore).getD default

def c3WRunChat : ChatResponse × Store :=
  (chat_endpoint c3WReq (LLMResult.ok "Sure!") "t1" c3WStore).getD default

def c3WRunResolve : String × Store :=
  (resolve_case "w3" (some "a title") "t2" c3WStore).getD default

def c4WRun : ChatResponse × Store :=
  (chat_endpoint c4WReq (LLMResult.ok "Sure!") "t1" emptyStore).getD default

def c5Run : ChatResponse × Store :=
  (chat_endpoint c5Req LLMResult.fail "t0" emptyStore).getD default

def c6Load : CaseRec × Store :=
  (load_or_create_case c6Req "t0" (load_or_create_profile c6Req emptyStore).2).getD default

def c6Run : ChatResponse × Store :=
  (chat_endpoint c6Req (LLMResult.ok "Hello!") "t0" emptyStore).getD default

def c10Run : ChatResponse × Store :=
  (chat_endpoint c10Req (LLMResult.ok "x") "t0" emptyStore).getD default

/-! ## Helper lemmas -/

theorem lookup_mem {β : Type} : ∀ (l : List (String × β)) (k : String) (v : β),
    l.lookup k = some v → ∃ a, (a, v) ∈ l := by
  intro l
  induction l with
  | nil => intro k v h; simp [List.lookup] at h
  | cons e rest ih =>
    intro k v h
    obtain ⟨a, b⟩ := e
    rw [List.lookup_cons] at h
    split at h
    · cases h
      exact ⟨a, List.mem_cons_self _ _⟩
    · obtain ⟨a', ha'⟩ := ih k v h
      exact ⟨a', List.mem_cons_of_mem _ ha'⟩

theorem setCase_lookup (cs : List (String × CaseRec)) (k : String) (f : CaseRec → CaseRec) :
    (setCase cs k f).lookup k = (cs.lookup k).map f := by
  induction cs with
  | nil => rfl
  | cons e rest ih =>
    obtain ⟨a, b⟩ := e
    by_cases hk : k = a
    · subst hk
      simp [setCase, List.lookup_cons]
    · have hk' : (k == a) = false := beq_eq_false_iff_ne.mpr hk
      simp [setCase, List.lookup_cons, hk, hk'] at ih ⊢
      exact ih

theorem mem_setCase (cs : List (String × CaseRec)) (k : String) (f : CaseRec → CaseRec)
    (kv : String × CaseRec) (h : kv ∈ setCase cs k f) :
    kv ∈ cs ∨ ∃ kv₀, kv₀ ∈ cs ∧ kv = (kv₀.1, f kv₀.2) := by
  simp only [setCase, List.mem_map] at h
  obtain ⟨e, he, heq⟩ := h
  by_cases hk : (k == e.1) = true
  · right
    exact ⟨e, he, by rw [← heq, if_pos hk]⟩
  · left
    rw [← heq, if_neg hk]
    exact he

theorem storeInv_mk (cs : List (String × CaseRec)) (cust : List (String × CustomerProfile))
    (h : ∀ kv ∈ cs, caseInvariant kv.2) : storeInv ⟨cs, cust⟩ := h

theorem load_or_create_profile_cases (req : ChatRequest) (store : Store) :
    (load_or_create_profile req store).2.cases = store.cases := by
  rcases h : store.customers.lookup req.customer_profile.customer_id with _ | p
  all_goals simp [load_or_create_profile, h]

theorem load_or_create_profile_of_found (req : ChatRequest) (store : Store)
    (p : CustomerProfile)
    (h : store.customers.lookup req.customer_profile.customer_id = some p) :
    load_or_create_profile req store = (p, store) := by
  simp [load_or_create_profile, h]

theorem load_or_create_case_lookup (req : ChatRequest) (now : String) (store : Store)
    (c : CaseRec) (s2 : Store)
    (h : load_or_create_case req now store = some (c, s2)) :
    s2.cases.lookup req.session_id = some c := by
  rcases heq : store.cases.lookup req.session_id with _ | c0
  · simp only [load_or_create_case, heq, Option.some.injEq, Prod.mk.injEq] at h
    obtain ⟨hc, hs⟩ := h
    rw [← hs, ← hc]
    simp [List.lookup_cons]
  · simp only [load_or_create_case, heq] at h
    by_cases hm : (c0.customer_id == req.customer_profile.customer_id) = true
    · simp only [hm, if_true, Option.some.injEq, Prod.mk.injEq] at h
      obtain ⟨hc, hs⟩ := h
      rw [← hs, ← hc]
      exact heq
    · simp [hm] at h

theorem load_or_create_case_of_found (req : ChatRequest) (now : String) (store : Store)
    (c : CaseRec)
    (hc : store.cases.lookup req.session_id = some c)
    (hid : c.customer_id = req.customer_profile.customer_id) :
    load_or_create_case req now store = some (c, store) := by
  simp [load_or_create_case, hc, hid]

theorem load_or_create_case_inv (req : ChatRequest) (now : String) (store : Store)
    (c : CaseRec) (s2 : Store)
    (h : load_or_create_case req now store = some (c, s2))
    (hinv : ∀ kv ∈ store.cases, caseInvariant kv.2) :
    (∀ kv ∈ s2.cases, caseInvariant kv.2) ∧ caseInvariant c := by
  rcases heq : store.cases.lookup req.session_id with _ | c0
  · simp only [load_or_create_case, heq, Option.some.injEq, Prod.mk.injEq] at h
    obtain ⟨hc, hs⟩ := h
    constructor
    · intro kv hkv
      rw [← hs] at hkv
      rcases List.mem_cons.mp hkv with h1 | h1
      · rw [h1]
        intro hfalse
        simp at hfalse
      · exact hinv _ h1
    · rw [← hc]
      intro hfalse
      simp at hfalse
  · simp only [load_or_create_case, heq] at h
    by_cases hm : (c0.customer_id == req.customer_profile.customer_id) = true
    · simp only [hm, if_true, Option.some.injEq, Prod.mk.injEq] at h
      obtain ⟨hc, hs⟩ := h
      rw [← hs, ← hc]
      refine ⟨hinv, ?_⟩
      obtain ⟨a, ha⟩ := lookup_mem _ _ _ heq
      exact hinv _ ha
    · simp [hm] at h

theorem chat_endpoint_eq_some (req : ChatRequest) (llm : LLMResult) (now : String)
    (store : Store) (resp : ChatResponse) (store' : Store)
    (h : chat_endpoint req llm now store = some (resp, store')) :
    ∃ c s2, load_or_create_case req now (load_or_create_profile req store).2 = some (c, s2) ∧
      process_turn req llm now c s2 = (resp, store') := by
  rcases hl : load_or_create_case req now (load_or_create_profile req store).2 with _ | cs
  · simp [chat_endpoint, hl] at h
  · simp only [chat_endpoint, hl, Option.map_some', Option.some.injEq] at h
    exact ⟨cs.1, cs.2, rfl, h⟩

/-- In the allowed branch with an LLM failure, `process_turn` substitutes
the apology, forces `escalated := true`, leaves the status untouched, and
persists the turn. -/
theorem process_turn_fail_eq (req : ChatRequest) (now : String) (c : CaseRec) (s : Store)
    (hall : domainAllows (intentOf req.user_query) req.domain = true) :
    process_turn req LLMResult.fail now c s =
      ({ bot_response := apologyMessage, case_status := c.status,
         case_id := some req.session_id,
         faq_suggestion := some (get_knowledge_base_info req.user_query req.domain),
         sentiment_detected := some (analyze_sentiment req.user_query) },
       { s with cases := setCase s.cases req.session_id (fun c0 =>
           { c0 with
               conversation_history := req.conversation_history ++
                 [⟨"user", req.user_query, now⟩, ⟨"bot", apologyMessage, now⟩],
               last_updated := now, status := c.status, escalated := true }) }) := by
  have hall' : domainAllows (determine_intent_and_urgency req.user_query).1 req.domain = true :=
    hall
  simp only [process_turn, hall', Bool.not_true, Bool.false_eq_true, if_false, Bool.and_false]

/-- In the allowed branch, `process_turn` produces a response carrying the
case id, faq suggestion and sentiment, and persists the request history
plus the two-entry turn pair, for some bot text / escalated flag / status
determined by the LLM outcome and the escalation policy. -/
theorem process_turn_allowed_shape (req : ChatRequest) (llm : LLMResult) (now : String)
    (c : CaseRec) (s : Store)
    (hall : domainAllows (intentOf req.user_query) req.domain = true) :
    ∃ bot1 esc1 status1,
      process_turn req llm now c s =
        ({ bot_response := bot1, case_status := status1, case_id := some req.session_id,
           faq_suggestion := some (get_knowledge_base_info req.user_query req.domain),
           sentiment_detected := some (analyze_sentiment req.user_query) },
         { s with cases := setCase s.cases req.session_id (fun c0 =>
             { c0 with
                 conversation_history := req.conversation_history ++
                   [⟨"user", req.user_query, now⟩, ⟨"bot", bot1, now⟩],
                 last_updated := now, status := status1, escalated := esc1 }) }) := by
  have hall' : domainAllows (determine_intent_and_urgency req.user_query).1 req.domain = true :=
    hall
  cases llm with
  | fail =>
    exact ⟨apologyMessage, true, c.status, process_turn_fail_eq req now c s hall⟩
  | ok t =>
    by_cases hse :
        (manage_case_escalation (req.conversation_history.length / 2 + 1)
            (determine_intent_and_urgency req.user_query).1
            (determine_intent_and_urgency req.user_query).2.1
            (analyze_sentiment req.user_query) c.escalated && !c.escalated) = true
    · refine ⟨t ++ escalationNotice, true, "escalated_to_human", ?_⟩
      simp only [process_turn, hall', Bool.not_true, Bool.false_eq_true, if_false, hse, if_true]
    · have hse' :
          (manage_case_escalation (req.conversation_history.length / 2 + 1)
              (determine_intent_and_urgency req.user_query).1
              (determine_intent_and_urgency req.user_query).2.1
              (analyze_sentiment req.user_query) c.escalated && !c.escalated) = false := by
        simpa using hse
      refine ⟨t, c.escalated, c.status, ?_⟩
      simp only [process_turn, hall', Bool.not_true, Bool.false_eq_true, if_false, hse']

/-- In the denied-domain branch, `process_turn` returns the fixed refusal
response and leaves the store untouched. -/
theorem process_turn_denied (req : ChatRequest) (llm : LLMResult) (now : String)
    (c : CaseRec) (s : Store)
    (hdeny : domainAllows (intentOf req.user_query) req.domain = false) :
    process_turn req llm now c s = (refusalResponse req.domain, s) := by
  unfold process_turn
  simp only [intentOf] at hdeny
  simp [hdeny]

theorem find?_eq_of_keys_lower (l : List Char) :
    ∀ (kb : List (String × String)),
      (∀ e ∈ kb, toLowerL e.1.toList = e.1.toList) →
      kb.find? (fun e => containsSub e.1 l) =
        kb.find? (fun e => isSubL (toLowerL e.1.toList) l) := by
  intro kb
  induction kb with
  | nil => intro _; rfl
  | cons e rest ih =>
    intro hk
    have he : toLowerL e.1.toList = e.1.toList := hk e (List.mem_cons_self _ _)
    have hrest := ih fun e' he' => hk e' (List.mem_cons_of_mem _ he')
    have hcond : containsSub e.1 l = isSubL (toLowerL e.1.toList) l := by
      unfold containsSub
      rw [he]
    simp only [List.find?_cons, hcond, hrest]

theorem kb_keys_lower :
    ∀ kv ∈ domain_knowledge_bases, ∀ e ∈ kv.2, toLowerL e.1.toList = e.1.toList := by
  decide

/-- C7: `get_knowledge_base_info` returns the first entry, in the domain
table's insertion order, whose keyword is a case-insensitive substring of
the utterance, and the sentinel when no keyword is contained.  (Every
keyword of the embedded table is lower-case, so the source's one-sided
lowering `keyword in query.lower()` coincides with case-insensitive
containment.) -/
theorem C7_kb_first_ci_match_refinement (query domain : String) :
    get_knowledge_base_info query domain =
      match kb_first_ci_match query domain with
      | some e => e.2
      | none => kbSentinel := by
  unfold get_knowledge_base_info kb_first_ci_match
  rcases hl : domain_knowledge_bases.lookup domain with _ | kb
  · rfl
  · have hk : ∀ e ∈ kb, toLowerL e.1.toList = e.1.toList := by
      obtain ⟨a, ha⟩ := lookup_mem _ _ _ hl
      exact kb_keys_lower _ ha
    simp only [Option.getD_some, find?_eq_of_keys_lower _ kb hk]

/-- C8: an utterance whose normalised (lower-cased, stripped) text matches a
greeting pattern is always classified as intent `greeting` with urgency
`low` and no extracted entities — the greeting check precedes shop-id
extraction, so no shop id is extracted. -/
theorem C8_greeting_priority (query : String)
    (h : greetingMatch (pyLowerStrip query) = true) :
    determine_intent_and_urgency query = ("greeting", "low", none) := by
  unfold determine_intent_and_urgency
  simp [h]

theorem C8_greeting_priority_witness :
    greetingMatch (pyLowerStrip "hi, my order number is 12345") = true ∧
    determine_intent_and_urgency "hi, my order number is 12345" = ("greeting", "low", none) :=
  ⟨by decide, C8_greeting_priority "hi, my order number is 12345" (by decide)⟩

/-- C9: a supplied shop id whose stripped, upper-cased form contains any
character outside `[A-Z0-9]` yields the malformed-id message, and the
result does not depend on the order store or on today's date (no store
lookup happens on that path). -/
theorem C9_malformed_id_no_store_query (db : List OrderRec) (todayDays : Int) (s : String)
    (h : (cleanId s).toList.any (fun c => !validIdChar c) = true) :
    get_order_details_by_id (some db) todayDays (some s) = malformedIdMsg (cleanId s) ∧
    ∀ (db' : List OrderRec) (todayDays' : Int),
      get_order_details_by_id (some db') todayDays' (some s) =
        get_order_details_by_id (some db) todayDays (some s) := by
  have hall : (cleanId s).toList.all validIdChar = false := by
    obtain ⟨c, hc, hb⟩ := List.any_eq_true.mp h
    simp only [Bool.not_eq_true'] at hb
    exact List.all_eq_false.mpr ⟨c, hc, by simp [hb]⟩
  have hs : ¬(s = "") := by
    intro hs0
    rw [hs0] at h
    simp [cleanId, pyStrip, toUpperL] at h
  have hmain : ∀ (db0 : List OrderRec) (td : Int),
      get_order_details_by_id (some db0) td (some s) = malformedIdMsg (cleanId s) := by
    intro db0 td
    have hcond : (!(!(cleanId s).toList.isEmpty && (cleanId s).toList.all validIdChar)) = true := by
      rw [hall]
      simp
    simp only [get_order_details_by_id]
    rw [if_neg hs, if_pos hcond]
  exact ⟨hmain db todayDays, fun db' td' => (hmain db' td').trans (hmain db todayDays).symm⟩

theorem C9_malformed_id_no_store_query_witness :
    (cleanId "shop-123!").toList.any (fun c => !validIdChar c) = true ∧
    get_order_details_by_id (some []) 0 (some "shop-123!") = malformedIdMsg (cleanId "shop-123!") :=
  ⟨by decide, (C9_malformed_id_no_store_query [] 0 "shop-123!" (by decide)).1⟩

theorem manage_case_escalation_eq (t : Nat) (i u s : String) (e : Bool) :
    manage_case_escalation t i u s e =
      (e || (u == "high" && s == "frustrated") || (decide (3 < t) && s == "frustrated")
        || (escalationIntents.contains i && decide (2 < t))) := by
  unfold manage_case_escalation
  cases e
  · cases h1 : (u == "high" && s == "frustrated")
    · cases h2 : (decide (3 < t) && s == "frustrated")
      · cases h3 : (escalationIntents.contains i && decide (2 < t)) <;> simp [h1, h2, h3]
      · simp [h1, h2]
    · simp [h1]
  · simp

/-- C6: the escalation policy returns `true` exactly when the prior
escalated flag is set (checked first), or urgency is high with frustrated
sentiment, or the turn count exceeds 3 with frustrated sentiment, or the
intent is one of the five escalation intents with turn count above 2; and
the orchestrator feeds it `turn = history length / 2 + 1` computed from the
request's conversation history, persisting the policy's verdict as the
case's escalated flag on an LLM-success turn. -/
theorem C6_escalation_policy_iff :
    (∀ (current_turn : Nat) (intent urgency sentiment : String) (escalated_in_session : Bool),
        manage_case_escalation current_turn intent urgency sentiment escalated_in_session = true ↔
          (escalated_in_session = true ∨
            (urgency = "high" ∧ sentiment = "frustrated") ∨
            (3 < current_turn ∧ sentiment = "frustrated") ∨
            (intent ∈ escalationIntents ∧ 2 < current_turn)))
    ∧ (∀ (req : ChatRequest) (t now : String) (store : Store) (c : CaseRec) (s2 : Store)
          (resp : ChatResponse) (store' : Store),
        load_or_create_case req now (load_or_create_profile req store).2 = some (c, s2) →
        chat_endpoint req (LLMResult.ok t) now store = some (resp, store') →
        domainAllows (intentOf req.user_query) req.domain = true →
        ∃ c', store'.cases.lookup req.session_id = some c' ∧
          c'.escalated = manage_case_escalation (req.conversation_history.length / 2 + 1)
            (intentOf req.user_query) (urgencyOf req.user_query)
            (analyze_sentiment req.user_query) c.escalated) := by
  constructor
  · intro t i u s e
    rw [manage_case_escalation_eq]
    simp [List.contains, List.elem_iff, Bool.or_eq_true, Bool.and_eq_true,
      decide_eq_true_iff, beq_iff_eq, or_assoc]
  · intro req t now store c s2 resp store' hload hchat hall
    obtain ⟨c0, s20, hl0, hpt⟩ := chat_endpoint_eq_some _ _ _ _ _ _ hchat
    rw [hload] at hl0
    injection hl0 with hpair
    cases hpair
    have hs : s2.cases.lookup req.session_id = some c :=
      load_or_create_case_lookup _ _ _ _ _ hload
    have hall' : domainAllows (determine_intent_and_urgency req.user_query).1 req.domain = true :=
      hall
    simp only [process_turn, hall', Bool.not_true, Bool.false_eq_true, if_false] at hpt
    by_cases hse :
        (manage_case_escalation (req.conversation_history.length / 2 + 1)
            (determine_intent_and_urgency req.user_query).1
            (determine_intent_and_urgency req.user_query).2.1
            (analyze_sentiment req.user_query) c.escalated && !c.escalated) = true
    · simp only [hse, if_true] at hpt
      cases hpt
      refine ⟨{ c with
          conversation_history := req.conversation_history ++
            [⟨"user", req.user_query, now⟩, ⟨"bot", t ++ escalationNotice, now⟩],
          last_updated := now, status := "escalated_to_human", escalated := true }, ?_, ?_⟩
      · rw [setCase_lookup, hs]
        rfl
      · exact ((Bool.and_eq_true _ _).mp hse).1.symm
    · have hse' :
          (manage_case_escalation (req.conversation_history.length / 2 + 1)
              (determine_intent_and_urgency req.user_query).1
              (determine_intent_and_urgency req.user_query).2.1
              (analyze_sentiment req.user_query) c.escalated && !c.escalated) = false := by
        simpa using hse
      simp only [hse', Bool.false_eq_true, if_false] at hpt
      cases hpt
      refine ⟨{ c with
          conversation_history := req.conversation_history ++
            [⟨"user", req.user_query, now⟩, ⟨"bot", t, now⟩],
          last_updated := now, status := c.status, escalated := c.escalated }, ?_, ?_⟩
      · rw [setCase_lookup, hs]
        rfl
      · show c.escalated = manage_case_escalation _ _ _ _ c.escalated
        cases hce : c.escalated
        · rw [hce] at hse'
          simpa using hse'.symm
        · rw [manage_case_escalation_eq]
          simp

theorem C6_escalation_policy_iff_witness :
    load_or_create_case c6Req "t0" (load_or_create_profile c6Req emptyStore).2 =
      some (c6Load.1, c6Load.2) ∧
    chat_endpoint c6Req (LLMResult.ok "Hello!") "t0" emptyStore = some (c6Run.1, c6Run.2) ∧
    domainAllows (intentOf c6Req.user_query) c6Req.domain = true ∧
    (∃ c', c6Run.2.cases.lookup c6Req.session_id = some c' ∧
      c'.escalated = manage_case_escalation (c6Req.conversation_history.length / 2 + 1)
        (intentOf c6Req.user_query) (urgencyOf c6Req.user_query)
        (analyze_sentiment c6Req.user_query) c6Load.1.escalated) :=
  ⟨rfl, rfl, by decide,
    C6_escalation_policy_iff.2 c6Req "Hello!" "t0" emptyStore c6Load.1 c6Load.2
      c6Run.1 c6Run.2 rfl rfl (by decide)⟩

/-- C10: for a requested domain outside {general, technical, finance,
travel} the guard's permitted set is empty, so the guard allows exactly the
intent `general_inquiry` (via the override exception); every other
classified intent — greeting included — gets the fixed refusal response,
while a `general_inquiry` turn passes the guard and is processed (the
response carries the case id). -/
theorem C10_unknown_domain_guard (d : String)
    (h1 : d ≠ "general") (h2 : d ≠ "technical") (h3 : d ≠ "finance") (h4 : d ≠ "travel") :
    (∀ intent : String, domainAllows intent d = (intent == "general_inquiry"))
    ∧ (∀ (req : ChatRequest) (llm : LLMResult) (now : String) (store : Store)
          (resp : ChatResponse) (store' : Store),
        req.domain = d →
        chat_endpoint req llm now store = some (resp, store') →
        (intentOf req.user_query ≠ "general_inquiry" → resp = refusalResponse d)
        ∧ (intentOf req.user_query = "general_inquiry" → resp.case_id = some req.session_id)) := by
  have hb1 : (d == "general") = false := beq_eq_false_iff_ne.mpr h1
  have hb2 : (d == "technical") = false := beq_eq_false_iff_ne.mpr h2
  have hb3 : (d == "finance") = false := beq_eq_false_iff_ne.mpr h3
  have hb4 : (d == "travel") = false := beq_eq_false_iff_ne.mpr h4
  have hguard : ∀ intent : String, domainAllows intent d = (intent == "general_inquiry") := by
    intro intent
    unfold domainAllows domain_map
    simp [List.lookup_cons, hb1, hb2, hb3, hb4, bne]
  refine ⟨hguard, ?_⟩
  intro req llm now store resp store' hd hchat
  obtain ⟨c, s2, hl, hpt⟩ := chat_endpoint_eq_some _ _ _ _ _ _ hchat
  constructor
  · intro hni
    have hdeny : domainAllows (intentOf req.user_query) req.domain = false := by
      rw [hd, hguard]
      exact beq_eq_false_iff_ne.mpr hni
    rw [process_turn_denied _ _ _ _ _ hdeny] at hpt
    injection hpt with hp hq
    rw [← hd]
    exact hp.symm
  · intro hgi
    have hall : domainAllows (intentOf req.user_query) req.domain = true := by
      rw [hd, hguard, hgi]
      rfl
    obtain ⟨bot1, esc1, status1, heq⟩ := process_turn_allowed_shape req llm now c s2 hall
    rw [heq] at hpt
    injection hpt with hp hq
    rw [← hp]

theorem C10_unknown_domain_guard_witness :
    ("hr" : String) ≠ "general" ∧
    domainAllows "greeting" "hr" = ("greeting" == "general_inquiry") ∧
    chat_endpoint c10Req (LLMResult.ok "x") "t0" emptyStore = some (c10Run.1, c10Run.2) ∧
    intentOf c10Req.user_query ≠ "general_inquiry" ∧
    c10Run.1 = refusalResponse "hr" :=
  ⟨by decide,
   (C10_unknown_domain_guard "hr" (by decide) (by decide) (by decide) (by decide)).1 "greeting",
   rfl,
   by decide,
   ((C10_unknown_domain_guard "hr" (by decide) (by decide) (by decide) (by decide)).2
      c10Req (LLMResult.ok "x") "t0" emptyStore c10Run.1 c10Run.2 rfl rfl).1 (by decide)⟩

/-- C5: on an LLM failure during a non-denied chat turn, the orchestrator
substitutes the fixed apology as the bot response, forces the persisted
case's escalated flag to true unconditionally (the status is left as it
was, independent of the Escalation Policy), and still persists the turn
pair to the conversation history. -/
theorem C5_llm_failure_apology_escalation_persisted (req : ChatRequest) (now : String)
    (store : Store) (resp : ChatResponse) (store' : Store)
    (hchat : chat_endpoint req LLMResult.fail now store = some (resp, store'))
    (hall : domainAllows (intentOf req.user_query) req.domain = true) :
    resp.bot_response = apologyMessage ∧
    ∃ c', store'.cases.lookup req.session_id = some c' ∧
      c'.escalated = true ∧
      c'.conversation_history = req.conversation_history ++
        [⟨"user", req.user_query, now⟩, ⟨"bot", apologyMessage, now⟩] := by
  obtain ⟨c, s2, hl, hpt⟩ := chat_endpoint_eq_some _ _ _ _ _ _ hchat
  have hs : s2.cases.lookup req.session_id = some c :=
    load_or_create_case_lookup _ _ _ _ _ hl
  rw [process_turn_fail_eq req now c s2 hall] at hpt
  injection hpt with hp hq
  constructor
  · rw [← hp]
  · refine ⟨{ c with
        conversation_history := req.conversation_history ++
          [⟨"user", req.user_query, now⟩, ⟨"bot", apologyMessage, now⟩],
        last_updated := now, status := c.status, escalated := true }, ?_, rfl, rfl⟩
    rw [← hq]
    have hlk := setCase_lookup s2.cases req.session_id (fun c0 =>
      { c0 with
          conversation_history := req.conversation_history ++
            [⟨"user", req.user_query, now⟩, ⟨"bot", apologyMessage, now⟩],
          last_updated := now, status := c.status, escalated := true })
    rw [hs] at hlk
    exact hlk

theorem C5_llm_failure_apology_escalation_persisted_witness :
    chat_endpoint c5Req LLMResult.fail "t0" emptyStore = some (c5Run.1, c5Run.2) ∧
    domainAllows (intentOf c5Req.user_query) c5Req.domain = true ∧
    (c5Run.1.bot_response = apologyMessage ∧
      ∃ c', c5Run.2.cases.lookup c5Req.session_id = some c' ∧
        c'.escalated = true ∧
        c'.conversation_history = c5Req.conversation_history ++
          [⟨"user", c5Req.user_query, "t0"⟩, ⟨"bot", apologyMessage, "t0"⟩]) :=
  ⟨rfl, by decide,
   C5_llm_failure_apology_escalation_persisted c5Req "t0" emptyStore c5Run.1 c5Run.2
     rfl (by decide)⟩

/-- C1 counterexample: a denied-domain turn (response status `closed`,
case id `none`) arriving with no stored records nevertheless creates both a
case record and a customer-profile record, because the load-or-create phase
runs before the guard. -/
theorem C1_denied_turn_creates_records_counterexample :
    (chat_endpoint c1Req (LLMResult.ok "x") "t0" emptyStore).map
        (fun r => (r.1.case_status, r.1.case_id, (r.2.cases.lookup "s1").isSome,
          (r.2.customers.lookup "c1").isSome)) =
      some ("closed", none, true, true) := rfl

/-- C1 (amended): a denied chat turn returns the fixed refusal response
(status `closed`, no case id, no faq suggestion, sentiment `unanswered`),
and leaves the stores byte-for-byte unchanged provided the customer profile
and the case (owned by that customer) already exist; when either is
missing, the pre-guard load-or-create phase still inserts it. -/
theorem C1_denied_turn_refusal_and_preservation (req : ChatRequest) (llm : LLMResult)
    (now : String) (store : Store) (resp : ChatResponse) (store' : Store)
    (hchat : chat_endpoint req llm now store = some (resp, store'))
    (hdeny : domainAllows (intentOf req.user_query) req.domain = false) :
    resp = refusalResponse req.domain ∧
    ((store.customers.lookup req.customer_profile.customer_id).isSome = true →
      (∃ c, store.cases.lookup req.session_id = some c ∧
        c.customer_id = req.customer_profile.customer_id) →
      store' = store) := by
  obtain ⟨c, s2, hl, hpt⟩ := chat_endpoint_eq_some _ _ _ _ _ _ hchat
  rw [process_turn_denied _ _ _ _ _ hdeny] at hpt
  injection hpt with hp hq
  refine ⟨hp.symm, ?_⟩
  intro hps hcs
  obtain ⟨c0, hc0, hcid⟩ := hcs
  rcases hop : store.customers.lookup req.customer_profile.customer_id with _ | p
  · rw [hop] at hps
    simp at hps
  · have h2 : (load_or_create_profile req store).2 = store := by
      rw [load_or_create_profile_of_found req store p hop]
    rw [h2] at hl
    rw [load_or_create_case_of_found req now store c0 hc0 hcid] at hl
    injection hl with hl1
    cases hl1
    exact hq.symm

theorem C1_denied_turn_refusal_and_preservation_witness :
    chat_endpoint c1WReq (LLMResult.ok "x") "t1" c1WStore = some (c1WRun.1, c1WRun.2) ∧
    domainAllows (intentOf c1WReq.user_query) c1WReq.domain = false ∧
    c1WRun.1 = refusalResponse c1WReq.domain ∧
    c1WRun.2 = c1WStore :=
  ⟨rfl, by decide,
   (C1_denied_turn_refusal_and_preservation c1WReq (LLMResult.ok "x") "t1" c1WStore
      c1WRun.1 c1WRun.2 rfl (by decide)).1,
   (C1_denied_turn_refusal_and_preservation c1WReq (LLMResult.ok "x") "t1" c1WStore
      c1WRun.1 c1WRun.2 rfl (by decide)).2 rfl ⟨c1WCase, rfl, rfl⟩⟩

/-- C2 counterexample: one LLM-failure chat turn from empty stores reaches
a persisted case with `escalated = true` and `status = "open"` — violating
`escalated ⇒ status ∈ {escalated_to_human, resolved}` — because the
failure path sets the flag after which the escalation block's
`not escalated` test prevents the status update. -/
theorem C2_llm_failure_breaks_invariant_counterexample :
    (chat_endpoint c2Req LLMResult.fail "t0" emptyStore).map
        (fun r => (r.2.cases.lookup "s2").map (fun cc => (cc.escalated, cc.status))) =
      some (some (true, "open")) := rfl

/-- C2 (amended): the invariant `escalated = true ⇒ status ∈
{escalated_to_human, resolved}` is preserved by every chat turn whose LLM
call succeeds and by every resolution call; the LLM-failure path is the
exception, as it forces the flag without touching the status. -/
theorem C2_escalated_status_invariant_amended :
    (∀ (req : ChatRequest) (t now : String) (store : Store) (resp : ChatResponse)
        (store' : Store),
      storeInv store →
      chat_endpoint req (LLMResult.ok t) now store = some (resp, store') →
      storeInv store')
    ∧ (∀ (case_id : String) (llm : Option String) (now : String) (store : Store)
          (msg : String) (store' : Store),
        storeInv store →
        resolve_case case_id llm now store = some (msg, store') →
        storeInv store') := by
  constructor
  · intro req t now store resp store' hinv hchat
    obtain ⟨c, s2, hl, hpt⟩ := chat_endpoint_eq_some _ _ _ _ _ _ hchat
    have hinv0 : ∀ kv ∈ (load_or_create_profile req store).2.cases, caseInvariant kv.2 := by
      rw [load_or_create_profile_cases]
      exact hinv
    obtain ⟨hinv2, hc⟩ := load_or_create_case_inv _ _ _ _ _ hl hinv0
    by_cases hall : domainAllows (intentOf req.user_query) req.domain = true
    · have hall' :
          domainAllows (determine_intent_and_urgency req.user_query).1 req.domain = true := hall
      simp only [process_turn, hall', Bool.not_true, Bool.false_eq_true, if_false] at hpt
      by_cases hse :
          (manage_case_escalation (req.conversation_history.length / 2 + 1)
              (determine_intent_and_urgency req.user_query).1
              (determine_intent_and_urgency req.user_query).2.1
              (analyze_sentiment req.user_query) c.escalated && !c.escalated) = true
      · simp only [hse, if_true] at hpt
        injection hpt with hp hq
        rw [← hq]
        apply storeInv_mk
        intro kv hkv
        rcases mem_setCase _ _ _ _ hkv with h | ⟨kv₀, hkv₀, hkv'⟩
        · exact hinv2 _ h
        · rw [hkv']
          intro _
          left
          rfl
      · have hse' :
            (manage_case_escalation (req.conversation_history.length / 2 + 1)
                (determine_intent_and_urgency req.user_query).1
                (determine_intent_and_urgency req.user_query).2.1
                (analyze_sentiment req.user_query) c.escalated && !c.escalated) = false := by
          simpa using hse
        simp only [hse', Bool.false_eq_true, if_false] at hpt
        injection hpt with hp hq
        rw [← hq]
        apply storeInv_mk
        intro kv hkv
        rcases mem_setCase _ _ _ _ hkv with h | ⟨kv₀, hkv₀, hkv'⟩
        · exact hinv2 _ h
        · rw [hkv']
          intro hesc
          exact hc hesc
    · have hdeny : domainAllows (intentOf req.user_query) req.domain = false := by
        simpa using hall
      rw [process_turn_denied _ _ _ _ _ hdeny] at hpt
      injection hpt with hp hq
      rw [← hq]
      exact hinv2
  · intro case_id llm now store msg store' hinv hres
    rcases hlk : store.cases.lookup case_id with _ | c
    · simp [resolve_case, hlk] at hres
    · simp only [resolve_case, hlk] at hres
      by_cases hst : (c.status == "resolved" || c.status == "closed") = true
      · simp only [hst, if_true, Option.some.injEq, Prod.mk.injEq] at hres
        rw [← hres.2]
        exact hinv
      · have hst' : (c.status == "resolved" || c.status == "closed") = false := by
          simpa using hst
        simp only [hst', Bool.false_eq_true, if_false, Option.some.injEq, Prod.mk.injEq] at hres
        rw [← hres.2]
        apply storeInv_mk
        intro kv hkv
        rcases mem_setCase _ _ _ _ hkv with h | ⟨kv₀, hkv₀, hkv'⟩
        · exact hinv _ h
        · rw [hkv']
          intro _
          right
          rfl

theorem C2_escalated_status_invariant_amended_witness :
    storeInv emptyStore ∧
    chat_endpoint c2WReq (LLMResult.ok "Hello!") "t0" emptyStore = some (c2WRun.1, c2WRun.2) ∧
    storeInv c2WRun.2 :=
  ⟨by decide, rfl,
   C2_escalated_status_invariant_amended.1 c2WReq "Hello!" "t0" emptyStore c2WRun.1 c2WRun.2
     (by decide) rfl⟩

/-- C3 counterexample: a chat turn on a case whose stored status is
`resolved` is still fully processed — the stored conversation history grows
from 2 to 4 entries — because `chat_endpoint` never consults the loaded
case's status before processing. -/
theorem C3_resolved_case_still_appends_counterexample :
    c3Case.status = "resolved" ∧
    c3Case.conversation_history.length = 2 ∧
    (chat_endpoint c3Req (LLMResult.ok "Sure!") "t1" c3Store).map
        (fun r => (r.2.cases.lookup "s3").map (fun cc => cc.conversation_history.length)) =
      some (some 4) :=
  ⟨rfl, rfl, rfl⟩

/-- C3 (amended): `resolved`/`closed` are terminal only for the resolution
operation (resolving an already resolved/closed case is a store-preserving
no-op); the chat endpoint does not treat them as terminal — a guard-passing
chat turn on such a case still appends the two-entry turn pair. -/
theorem C3_terminal_status_amended :
    (∀ (req : ChatRequest) (llm : LLMResult) (now : String) (store : Store)
        (resp : ChatResponse) (store' : Store) (c : CaseRec),
      store.cases.lookup req.session_id = some c →
      c.customer_id = req.customer_profile.customer_id →
      (c.status = "resolved" ∨ c.status = "closed") →
      chat_endpoint req llm now store = some (resp, store') →
      domainAllows (intentOf req.user_query) req.domain = true →
      ∃ c', store'.cases.lookup req.session_id = some c' ∧
        c'.conversation_history = req.conversation_history ++
          [⟨"user", req.user_query, now⟩, ⟨"bot", resp.bot_response, now⟩])
    ∧ (∀ (case_id : String) (llm : Option String) (now : String) (store : Store) (c : CaseRec)
          (msg : String) (store' : Store),
        store.cases.lookup case_id = some c →
        (c.status = "resolved" ∨ c.status = "closed") →
        resolve_case case_id llm now store = some (msg, store') →
        store' = store ∧ msg = "Case " ++ case_id ++ " is already resolved.") := by
  constructor
  · intro req llm now store resp store' c hlk hcid hst hchat hall
    obtain ⟨c1, s2, hl, hpt⟩ := chat_endpoint_eq_some _ _ _ _ _ _ hchat
    have hs := load_or_create_case_lookup _ _ _ _ _ hl
    obtain ⟨bot1, esc1, status1, heq⟩ := process_turn_allowed_shape req llm now c1 s2 hall
    rw [heq] at hpt
    injection hpt with hp hq
    refine ⟨{ c1 with
        conversation_history := req.conversation_history ++
          [⟨"user", req.user_query, now⟩, ⟨"bot", bot1, now⟩],
        last_updated := now, status := status1, escalated := esc1 }, ?_, ?_⟩
    · rw [← hq]
      have hlu := setCase_lookup s2.cases req.session_id (fun c0 =>
        { c0 with
            conversation_history := req.conversation_history ++
              [⟨"user", req.user_query, now⟩, ⟨"bot", bot1, now⟩],
            last_updated := now, status := status1, escalated := esc1 })
      rw [hs] at hlu
      exact hlu
    · rw [← hp]
  · intro case_id llm now store c msg store' hlk hst hres
    have hcond : (c.status == "resolved" || c.status == "closed") = true := by
      rcases hst with h | h <;> simp [h]
    simp only [resolve_case, hlk, hcond, if_true, Option.some.injEq, Prod.mk.injEq] at hres
    exact ⟨hres.2.symm, hres.1.symm⟩

theorem C3_terminal_status_amended_witness :
    c3WStore.cases.lookup c3WReq.session_id = some c3WCase ∧
    c3WCase.status = "closed" ∧
    chat_endpoint c3WReq (LLMResult.ok "Sure!") "t1" c3WStore = some (c3WRunChat.1, c3WRunChat.2) ∧
    (∃ c', c3WRunChat.2.cases.lookup c3WReq.session_id = some c' ∧
      c'.conversation_history = c3WReq.conversation_history ++
        [⟨"user", c3WReq.user_query, "t1"⟩, ⟨"bot", c3WRunChat.1.bot_response, "t1"⟩]) ∧
    resolve_case "w3" (some "a title") "t2" c3WStore = some (c3WRunResolve.1, c3WRunResolve.2) ∧
    c3WRunResolve.2 = c3WStore ∧
    c3WRunResolve.1 = "Case " ++ "w3" ++ " is already resolved." := by
  refine ⟨rfl, rfl, rfl, ?_, rfl, ?_, ?_⟩
  · exact C3_terminal_status_amended.1 c3WReq (LLMResult.ok "Sure!") "t1" c3WStore
      c3WRunChat.1 c3WRunChat.2 c3WCase rfl rfl (Or.inr rfl) rfl (by decide)
  · exact (C3_terminal_status_amended.2 "w3" (some "a title") "t2" c3WStore c3WCase
      c3WRunResolve.1 c3WRunResolve.2 rfl (Or.inr rfl) rfl).1
  · exact (C3_terminal_status_amended.2 "w3" (some "a title") "t2" c3WStore c3WCase
      c3WRunResolve.1 c3WRunResolve.2 rfl (Or.inr rfl) rfl).2

/-- C4 counterexample: the persisted history is rebuilt from the
*request's* history, so a request carrying an empty history on a case whose
stored history has two entries wipes those entries — the stored history
after the turn is just the new pair. -/
theorem C4_stored_history_overwritten_counterexample :
    c4Case.conversation_history = [oldUserMsg, oldBotMsg] ∧
    (chat_endpoint c4Req (LLMResult.ok "Sure!") "t1" c4Store).map
        (fun r => (r.2.cases.lookup "s4").map (fun cc => cc.conversation_history)) =
      some (some [⟨"user", "please assist", "t1"⟩, ⟨"bot", "Sure!", "t1"⟩]) :=
  ⟨rfl, rfl⟩

/-- C4 (amended): each non-denied chat turn persists exactly the
request-supplied conversation history with two entries appended at its end
(one user entry carrying the query, one bot entry carrying the response
text, both timestamped); the previously persisted history is overwritten by
this list, so append-onlyness holds relative to the request's history, not
the stored one. -/
theorem C4_history_append_amended (req : ChatRequest) (llm : LLMResult) (now : String)
    (store : Store) (resp : ChatResponse) (store' : Store)
    (hchat : chat_endpoint req llm now store = some (resp, store'))
    (hall : domainAllows (intentOf req.user_query) req.domain = true) :
    ∃ c', store'.cases.lookup req.session_id = some c' ∧
      c'.conversation_history =
        req.conversation_history ++
          [⟨"user", req.user_query, now⟩, ⟨"bot", resp.bot_response, now⟩] := by
  obtain ⟨c, s2, hl, hpt⟩ := chat_endpoint_eq_some _ _ _ _ _ _ hchat
  have hs := load_or_create_case_lookup _ _ _ _ _ hl
  obtain ⟨bot1, esc1, status1, heq⟩ := process_turn_allowed_shape req llm now c s2 hall
  rw [heq] at hpt
  injection hpt with hp hq
  refine ⟨{ c with
      conversation_history := req.conversation_history ++
        [⟨"user", req.user_query, now⟩, ⟨"bot", bot1, now⟩],
      last_updated := now, status := status1, escalated := esc1 }, ?_, ?_⟩
  · rw [← hq]
    have hlu := setCase_lookup s2.cases req.session_id (fun c0 =>
      { c0 with
          conversation_history := req.conversation_history ++
            [⟨"user", req.user_query, now⟩, ⟨"bot", bot1, now⟩],
          last_updated := now, status := status1, escalated := esc1 })
    rw [hs] at hlu
    exact hlu
  · rw [← hp]

theorem C4_history_append_amended_witness :
    chat_endpoint c4WReq (LLMResult.ok "Sure!") "t1" emptyStore = some (c4WRun.1, c4WRun.2) ∧
    domainAllows (intentOf c4WReq.user_query) c4WReq.domain = true ∧
    (∃ c', c4WRun.2.cases.lookup c4WReq.session_id = some c' ∧
      c'.conversation_history = c4WReq.conversation_history ++
        [⟨"user", c4WReq.user_query, "t1"⟩, ⟨"bot", c4WRun.1.bot_response, "t1"⟩]) :=
  ⟨rfl, by decide,
   C4_history_append_amended c4WReq (LLMResult.ok "Sure!") "t1" emptyStore c4WRun.1 c4WRun.2
     rfl (by decide)⟩

end EchoMind
